import Mathlib

/-!
# Verification of `omnigraffle-export` (`src/omnigraffle_export/__init__.py`)

Shallow embedding of the exporter's logic.  Modelling conventions:

* Paths are plain strings; `os.path.abspath` is modelled as the identity
  (paths are treated as already absolute, opaque names).
* The filesystem is a map `String → Option File`.  A `File` keeps the raw
  bytes of the artifact abstractly (`data`), together with the PDF subject
  metadata attribute (`subject`, `none` when the attribute is absent) and a
  flag `isPdf` saying whether PDFKit can parse the file as a PDF document.
* The external application (OmniGraffle, `hashlib.md5`, PDFKit) is an
  environment `Env` of uninterpreted functions: `md5` maps a file to its
  hex digest string, `render` maps canvas content and the application-side
  format string (the value from `EXPORT_FORMATS`) to rendered bytes, and
  `docOf` gives the canvas list the application yields when opening a
  document path.  Rendering through a pure function is deterministic,
  matching the change-detection design of the tool.
* `tempfile.mkstemp` draws fresh names from a stream `tmpNames` indexed by
  `tmpIdx`; the stream is part of the state, the freshness that `mkstemp`
  guarantees becomes explicit hypotheses where needed.
* Python exceptions are the `Except PyErr` monad, threaded together with
  the state: every operation returns `Except PyErr α × State`, so the
  state at the moment an exception escapes is preserved.
* `logging.warn` appends to `State.warnings`; `logging.debug` and the
  `print` on the verbose path produce console output only and are not
  modelled.  Every `doc.save` call records its destination in
  `State.saves`.
* Python `s.startswith(p)`, `s[n:]` and `len(s)` act on character
  sequences; they are modelled directly on `String.data`.
* `NSDictionary` indexing with an absent key raises through the PyObjC
  bridge (`KeyError`; were it instead to yield `None`, the following
  `None.startswith` would raise `AttributeError`) — either way an
  exception, modelled as `PyErr.keyError`.
-/

namespace OmnigraffleExport

/-- Python exceptions that the embedded code can raise.  `fuelExhausted` is
an artifact of the fuel encoding of the recursion
`export → compute_canvas_checksum → export` and is never produced at the
fuel used by the entry points (the inner call has `force = true` and format
`png`, so it never recurses further). -/
inductive PyErr
  | assertionError
  | keyError
  | valueError
  | attributeError
  | osError
  | fuelExhausted
deriving DecidableEq, Repr

/-- A canvas: a named sub-drawing of a document.  `content` stands
abstractly for the drawn content. -/
structure Canvas where
  name : String
  content : String
deriving DecidableEq, Repr

/-- A file on disk: abstract bytes, the optional PDF subject metadata
attribute, and whether PDFKit parses the file as a PDF document. -/
structure File where
  data : String
  subject : Option String
  isPdf : Bool
deriving DecidableEq, Repr

/-- The external world: md5 digests, the application's renderer (canvas
content × application format string ↦ bytes), and the canvas list obtained
by opening a document path. -/
structure Env where
  md5 : File → String
  render : String → String → String
  docOf : String → List Canvas

/-- Mutable state threaded through the embedded code. -/
structure State where
  fs : String → Option File
  tmpNames : Nat → String
  tmpIdx : Nat
  warnings : List String
  saves : List String

/-- An opened schema: `self.schemafile`, the opened document's canvases,
and the `verbose` option. -/
structure Schema where
  schemafile : String
  canvases : List Canvas
  verbose : Bool

/-- Point update of the filesystem map. -/
def setFile (fs : String → Option File) (p : String) (v : Option File) :
    String → Option File :=
  fun q => if q = p then v else fs q

/-- Calls into the external application made by `OmniGraffleSchema.__init__`. -/
inductive AppCall
  | activate
  | set_area_type
  | open_doc (path : String)
deriving DecidableEq, Repr

/-- Source constant `EXPORT_FORMATS`: the supported formats and their application-side
format strings. -/
def EXPORT_FORMATS : List (String × String) :=
  [("eps", "EPS Format"),
   ("pdf", "Apple PDF pasteboard type"),
   ("png", "PNG"),
   ("svg", "Scalable Vector Graphics XML File Type")]

/-- Source constant `PDF_CHECKSUM_ATTRIBUTE`: marker prefixed to the checksum stored in the
PDF subject attribute. -/
def PDF_CHECKSUM_ATTRIBUTE : String := "OmnigraffleExportChecksum: "

/-- Python `s.lower()`, on character sequences (the formats of interest
are ASCII). -/
def py_lower (s : String) : String :=
  ⟨s.data.map Char.toLower⟩

/-- Python `s.startswith(p)`, on character sequences. -/
def py_startswith (s p : String) : Bool :=
  s.data.take p.data.length == p.data

/-- Python `s[n:]` (slice from character index `n`). -/
def py_slice_from (s : String) (n : Nat) : String :=
  ⟨s.data.drop n⟩

/-- Python `"%s" % x` for `x` an optional string (`None` prints as
`"None"`). -/
def pyStrOpt : Option String → String
  | some s => s
  | none => "None"

/-- Function `checksum(filepath)`: asserts the file exists, then returns the md5 hex
digest of its content. -/
def checksum (env : Env) (fs : String → Option File) (filepath : String) :
    Except PyErr String :=
  match fs filepath with
  | none => .error .assertionError
  | some f => .ok (env.md5 f)

/-- Function `checksum_pdf(filepath)`: asserts the file exists, loads it with
PDFKit (`assert pdfdoc != None` fails when the file is not a parseable
PDF), reads the subject attribute (an absent key raises through the
bridge), and returns the checksum after the marker, or `None` when the
subject does not start with the marker. -/
def checksum_pdf (fs : String → Option File) (filepath : String) :
    Except PyErr (Option String) :=
  match fs filepath with
  | none => .error .assertionError
  | some f =>
    if f.isPdf = false then .error .assertionError
    else
      match f.subject with
      | none => .error .keyError
      | some subj =>
        if py_startswith subj PDF_CHECKSUM_ATTRIBUTE then
          .ok (some (py_slice_from subj PDF_CHECKSUM_ATTRIBUTE.data.length))
        else
          .ok none

/-- Call `os.unlink(p)`: removes the file, raising `OSError` when it does not
exist. -/
def os_unlink (fs : String → Option File) (p : String) :
    Except PyErr (String → Option File) :=
  match fs p with
  | none => .error .osError
  | some _ => .ok (setFile fs p none)

/-- The file written by `doc.save(as_=ef, in_=file)`: the rendering of the
selected canvas in the requested application format.  The application does
not set a subject attribute on rendered output. -/
def saved_file (env : Env) (c : Canvas) (ef : String) : File :=
  { data := env.render c.content ef
    subject := none
    isPdf := ef == "Apple PDF pasteboard type" }

/-- The message of `logging.warn("Canvas %s does not exist in %s" ...)`. -/
def warn_msg (canvasname schemafile : String) : String :=
  "Canvas " ++ canvasname ++ " does not exist in " ++ schemafile

/-- Line 59-60 of `export`: the checksum of the existing output file,
`checksum(file)` for non-pdf formats and `checksum_pdf(file)` for pdf
(the non-pdf digest is wrapped in `some` because Python compares it
against an optional value in the pdf case). -/
def existing_of (env : Env) (fs : String → Option File)
    (file fmtL : String) : Except PyErr (Option String) :=
  if fmtL ≠ "pdf" then
    match checksum env fs file with
    | .error e => .error e
    | .ok c => .ok (some c)
  else checksum_pdf fs file

/-- The tail of `export` starting at line 73 (`win = ...`): canvas lookup,
the save through the application, and — for pdf — re-opening the written
artifact and embedding the checksum into its subject attribute.
`fmtL` is the already-lowercased format. -/
def export_save (env : Env) (sch : Schema) (s : State)
    (canvasname file fmtL : String) (chksum : Option String)
    (_is_checksum : Bool) : Except PyErr Bool × State :=
  match sch.canvases.filter (fun c => c.name == canvasname) with
  | [canvas] =>
    -- `EXPORT_FORMATS[format]`: Python dict indexing raises KeyError on a
    -- missing key (hence the source's `export_format == None` branch is
    -- unreachable and the save always passes `as_=export_format`).
    match EXPORT_FORMATS.lookup fmtL with
    | none => (.error .keyError, s)
    | some export_format =>
      let saved := saved_file env canvas export_format
      let s1 : State :=
        { s with fs := setFile s.fs file (some saved)
                 saves := s.saves ++ [file] }
      if fmtL = "pdf" then
        -- re-open the just-written artifact and store the checksum
        match s1.fs file with
        | some f =>
          (.ok true,
           { s1 with
              fs := setFile s1.fs file
                (some { f with
                  subject :=
                    some (PDF_CHECKSUM_ATTRIBUTE ++ pyStrOpt chksum) }) })
        | none => (.error .attributeError, s1)
      else
        (.ok true, s1)
  | _ =>
    (.ok false,
     { s with warnings :=
        s.warnings ++ [warn_msg canvasname sch.schemafile] })

mutual

/-- Method `OmniGraffleSchema.export`, with a fuel argument making the mutual
recursion with `compute_canvas_checksum` structural.  At fuel `3` (the
entry point below) fuel is never exhausted, because the inner
`export(canvasname, tmpfile, "png", True, True)` takes neither branch that
calls `compute_canvas_checksum`. -/
def exportFuel : Nat → Env → Schema → State → String → String → String →
    Bool → Bool → Except PyErr Bool × State
  | 0, _, _, s, _, _, _, _, _ => (.error .fuelExhausted, s)
  | fuel+1, env, sch, s, canvasname, file, fmtArg, force, is_checksum =>
    -- format = format.lower(); chksum = None
    if (s.fs file).isSome ∧ force = false then
      match existing_of env s.fs file (py_lower fmtArg) with
      | .error e => (.error e, s)
      | .ok existing_chksum =>
        match computeFuel fuel env sch s canvasname with
        | (.error e, s1) => (.error e, s1)
        | (.ok new_chksum, s1) =>
          if existing_chksum = some new_chksum ∧ existing_chksum ≠ none then
            (.ok false, s1)  -- "No exporting - canvas not changed"
          else
            export_save env sch s1 canvasname file (py_lower fmtArg)
              (some new_chksum) is_checksum
    else if (py_lower fmtArg) = "pdf" then
      match computeFuel fuel env sch s canvasname with
      | (.error e, s1) => (.error e, s1)
      | (.ok c, s1) =>
        export_save env sch s1 canvasname file (py_lower fmtArg) (some c)
          is_checksum
    else
      export_save env sch s canvasname file (py_lower fmtArg) none is_checksum

/-- Method `OmniGraffleSchema.compute_canvas_checksum`, with fuel (see
`exportFuel`). -/
def computeFuel : Nat → Env → Schema → State → String →
    Except PyErr String × State
  | 0, _, _, s, _ => (.error .fuelExhausted, s)
  | fuel+1, env, sch, s, canvasname =>
    -- tmpfile = tempfile.mkstemp(suffix=".png")[1]
    let tmpfile := s.tmpNames s.tmpIdx
    let fs0 := setFile s.fs tmpfile
      (some { data := "", subject := none, isPdf := false })
    -- os.unlink(tmpfile)
    match os_unlink fs0 tmpfile with
    | .error e => (.error e, { s with fs := fs0, tmpIdx := s.tmpIdx + 1 })
    | .ok fs1 =>
      let s1 : State := { s with fs := fs1, tmpIdx := s.tmpIdx + 1 }
      -- assert self.export(canvasname, tmpfile, "png", True, True)
      match exportFuel fuel env sch s1 canvasname tmpfile "png" true true with
      | (.error e, s2) => (.error e, s2)
      | (.ok b, s2) =>
        if b = true then
          -- try: chksum = checksum(tmpfile); return chksum
          -- finally: os.unlink(tmpfile)
          match checksum env s2.fs tmpfile with
          | .ok c =>
            match os_unlink s2.fs tmpfile with
            | .error e2 => (.error e2, s2)
            | .ok fs3 => (.ok c, { s2 with fs := fs3 })
          | .error e =>
            match os_unlink s2.fs tmpfile with
            | .error e2 => (.error e2, s2)
            | .ok fs3 => (.error e, { s2 with fs := fs3 })
        else
          (.error .assertionError, s2)

end

/-- Method `OmniGraffleSchema.export` (the name `export` is a Lean keyword, hence
the guillemets).  Fuel 3 suffices on every path: the only nested call
chain is `export → compute_canvas_checksum → export`, and the innermost
call recurses no further. -/
def «export» (env : Env) (sch : Schema) (s : State)
    (canvasname file format : String) (force is_checksum : Bool) :
    Except PyErr Bool × State :=
  exportFuel 3 env sch s canvasname file format force is_checksum

/-- Method `OmniGraffleSchema.compute_canvas_checksum` entry point (fuel as in
`exportFuel 3`, which calls `computeFuel 2`). -/
def compute_canvas_checksum (env : Env) (sch : Schema) (s : State)
    (canvasname : String) : Except PyErr String × State :=
  computeFuel 2 env sch s canvasname

/-- Method `OmniGraffleSchema.get_canvas_list`. -/
def get_canvas_list (sch : Schema) : List String :=
  sch.canvases.map Canvas.name

/-- Target path used by `export_all`:
`os.path.join(os.path.abspath(targetdir), namemap(c, fmt))` with the
default `namemap = "%s.%s" % (c, f)`; `abspath` is the identity on our
opaque absolute paths and `join` appends with a separator. -/
def tpath (targetdir cname fmtArg : String) : String :=
  targetdir ++ "/" ++ (cname ++ "." ++ fmtArg)

/-- The loop body of `export_all` over the remaining canvas names; the
return value of each `export` is discarded, exceptions abort the loop. -/
def export_all_go (env : Env) (sch : Schema) (targetdir fmtArg : String)
    (force : Bool) : List String → State → Except PyErr Unit × State
  | [], s => (.ok (), s)
  | c :: rest, s =>
    match «export» env sch s c (tpath targetdir c fmtArg) fmtArg force false with
    | (.error e, s1) => (.error e, s1)
    | (.ok _, s1) => export_all_go env sch targetdir fmtArg force rest s1

/-- Method `OmniGraffleSchema.export_all`. -/
def export_all (env : Env) (sch : Schema) (s : State)
    (targetdir fmtArg : String) (force : Bool) :
    Except PyErr Unit × State :=
  export_all_go env sch targetdir fmtArg force (get_canvas_list sch) s

/-- Constructor `OmniGraffleSchema.__init__`: abspath (identity here), the
`os.path.isfile` check raising `ValueError` when the schema file is
missing, then — only on success — the calls into the external application
(`activate`, set the export area, `open`).  The second component records
the application calls performed. -/
def schema_init (env : Env) (fs : String → Option File) (verbose : Bool)
    (schemafile : String) : Except PyErr Schema × List AppCall :=
  match fs schemafile with
  | none => (.error .valueError, [])
  | some _ =>
    (.ok { schemafile := schemafile
           canvases := env.docOf schemafile
           verbose := verbose },
     [.activate, .set_area_type, .open_doc schemafile])

/-- The md5 digest of the temporary PNG rendering of a canvas — the value
`compute_canvas_checksum` returns for a uniquely-named canvas. -/
def freshOf (env : Env) (c : Canvas) : String :=
  env.md5 (saved_file env c "PNG")

/-- Net effect of one successful `compute_canvas_checksum` call on the
state: the temporary file is created and removed again, the temp-name
index advances, and the inner `export` logged one save (of the temporary
file). -/
def stepState (s : State) : State :=
  { s with fs := setFile s.fs (s.tmpNames s.tmpIdx) none
           tmpIdx := s.tmpIdx + 1
           saves := s.saves ++ [s.tmpNames s.tmpIdx] }

/-- Net effect of a pdf export that ran the save phase on a fresh output
path: temp churn of the checksum computation, then the tagged artifact at
`file`, with the temp save and the artifact save logged. -/
def afterPdfExport (env : Env) (c : Canvas) (s : State) (file : String) :
    State :=
  { s with
     fs := setFile (setFile s.fs (s.tmpNames s.tmpIdx) none) file
       (some { data := env.render c.content "Apple PDF pasteboard type"
               subject := some (PDF_CHECKSUM_ATTRIBUTE ++ freshOf env c)
               isPdf := true })
     tmpIdx := s.tmpIdx + 1
     saves := s.saves ++ [s.tmpNames s.tmpIdx, file] }

/-! ## Concrete fixtures used by counterexamples and witnesses -/

/-- A concrete external world: digests and renderings are distinct tagged
strings. -/
def envW : Env :=
  { md5 := fun f => "H" ++ f.data
    render := fun c ef => "R(" ++ c ++ "," ++ ef ++ ")"
    docOf := fun _ => [] }

/-- A concrete initial state: empty filesystem, a fixed temp-file name. -/
def stW : State :=
  { fs := fun _ => none
    tmpNames := fun _ => "/tmp/t"
    tmpIdx := 0
    warnings := []
    saves := [] }

/-- A document with a single canvas named `a`. -/
def schOne : Schema :=
  { schemafile := "doc.graffle"
    canvases := [{ name := "a", content := "x" }]
    verbose := false }

/-- A document with a single canvas named `b` (so `a` is missing). -/
def schB : Schema :=
  { schemafile := "doc.graffle"
    canvases := [{ name := "b", content := "y" }]
    verbose := false }

/-- A document with two canvases that share the name `a`. -/
def schDup : Schema :=
  { schemafile := "doc.graffle"
    canvases := [{ name := "a", content := "x" }, { name := "a", content := "y" }]
    verbose := false }

/-- A filesystem holding a PDF at `out.pdf` that was never tagged by the
tool: its subject attribute is absent. -/
def fsPdfUntagged : String → Option File :=
  fun p => if p = "out.pdf" then
    some { data := "OLD", subject := none, isPdf := true } else none

/-- State whose filesystem is `fsPdfUntagged`. -/
def stPdfUntagged : State := { stW with fs := fsPdfUntagged }

/-- A filesystem holding a PDF at `x.pdf` whose subject attribute is
present but does not start with the checksum marker. -/
def fsTagOther : String → Option File :=
  fun p => if p = "x.pdf" then
    some { data := "D", subject := some "unrelated", isPdf := true } else none

/-- The artifact that exporting canvas `a` of `schOne` as pdf under `envW`
produces: content rendered, subject tagged with the digest of the PNG
rendering. -/
def fileSkip : File :=
  { data := "R(x,Apple PDF pasteboard type)"
    subject := some ("OmnigraffleExportChecksum: " ++ "HR(x,PNG)")
    isPdf := true }

/-- State in which `out.pdf` already holds `fileSkip`, so a pdf export of
canvas `a` without force will skip. -/
def stSkip : State :=
  { stW with fs := fun p => if p = "out.pdf" then some fileSkip else none }

/-! ## Basic lemmas about the filesystem map and the fuel entry points -/

theorem setFile_same (fs : String → Option File) (p : String) (v : Option File) :
    setFile fs p v p = v := by
  simp [setFile]

theorem setFile_ne (fs : String → Option File) (p q : String) (v : Option File)
    (h : q ≠ p) : setFile fs p v q = fs q := by
  simp [setFile, h]

theorem setFile_set (fs : String → Option File) (p : String) (a b : Option File) :
    setFile (setFile fs p a) p b = setFile fs p b := by
  funext q
  by_cases hq : q = p <;> simp [setFile, hq]

theorem setFile_none_eq (fs : String → Option File) (p : String)
    (h : fs p = none) : setFile fs p none = fs := by
  funext q
  by_cases hq : q = p <;> simp [setFile, hq, h]

theorem py_lower_png : py_lower "png" = "png" := rfl

theorem py_lower_pdf : py_lower "pdf" = "pdf" := rfl

theorem lookup_png : EXPORT_FORMATS.lookup "png" = some "PNG" := rfl

theorem lookup_pdf :
    EXPORT_FORMATS.lookup "pdf" = some "Apple PDF pasteboard type" := rfl

/-- With a unique canvas named `canvasname`, `compute_canvas_checksum`
succeeds: it renders the canvas to the fresh temporary PNG, digests it,
deletes the temporary file again, and returns the digest.  The net state
effect is `stepState`. -/
theorem computeFuel_two_ok (env : Env) (sch : Schema) (s : State)
    (cn : String) (c : Canvas)
    (hf : sch.canvases.filter (fun x => x.name == cn) = [c]) :
    computeFuel 2 env sch s cn = (.ok (freshOf env c), stepState s) := by
  show computeFuel (1+1) env sch s cn = _
  simp only [computeFuel, exportFuel, os_unlink, setFile_same, export_save,
    checksum, existing_of, hf, freshOf, stepState, py_lower_png, lookup_png]
  simp [setFile_same, setFile_set, saved_file]

/-- With no unique canvas named `canvasname` (none, or several), the inner
`export` of `compute_canvas_checksum` warns and returns `False`, so the
`assert` fails: the call raises `AssertionError`.  The temporary file has
already been unlinked, so the net state effect is the same `stepState`
filesystem (minus the inner save), plus the warning. -/
theorem computeFuel_two_fail (env : Env) (sch : Schema) (s : State)
    (cn : String)
    (hf : ∀ c, sch.canvases.filter (fun x => x.name == cn) ≠ [c]) :
    computeFuel 2 env sch s cn =
      (.error .assertionError,
       { s with fs := setFile s.fs (s.tmpNames s.tmpIdx) none
                tmpIdx := s.tmpIdx + 1
                warnings := s.warnings ++ [warn_msg cn sch.schemafile] }) := by
  show computeFuel (1+1) env sch s cn = _
  match hm : sch.canvases.filter (fun x => x.name == cn) with
  | [c] => exact absurd hm (hf c)
  | [] =>
    simp only [computeFuel, exportFuel, os_unlink, setFile_same, export_save,
      hm, py_lower_png]
    simp [setFile_same, setFile_set]
  | c1 :: c2 :: cs =>
    simp only [computeFuel, exportFuel, os_unlink, setFile_same, export_save,
      hm, py_lower_png]
    simp [setFile_same, setFile_set]

/-- The canvas-lookup failure branch of the save phase: with no unique
match, `export` warns and returns `False` without saving. -/
theorem export_save_nomatch (env : Env) (sch : Schema) (s : State)
    (cn file fmtL : String) (chk : Option String) (ic : Bool)
    (hf : ∀ c, sch.canvases.filter (fun x => x.name == cn) ≠ [c]) :
    export_save env sch s cn file fmtL chk ic =
      (.ok false,
       { s with warnings := s.warnings ++ [warn_msg cn sch.schemafile] }) := by
  match hm : sch.canvases.filter (fun x => x.name == cn) with
  | [c] => exact absurd hm (hf c)
  | [] => simp [export_save, hm]
  | c1 :: c2 :: cs => simp [export_save, hm]

/-- The save phase for a unique canvas and the pdf format: save, then
re-open and tag the artifact's subject attribute with the checksum. -/
theorem export_save_pdf (env : Env) (sch : Schema) (s : State)
    (cn file : String) (chk : Option String) (ic : Bool) (c : Canvas)
    (hf : sch.canvases.filter (fun x => x.name == cn) = [c]) :
    export_save env sch s cn file "pdf" chk ic =
      (.ok true,
       { s with
          fs := setFile s.fs file
            (some { data := env.render c.content "Apple PDF pasteboard type"
                    subject := some (PDF_CHECKSUM_ATTRIBUTE ++ pyStrOpt chk)
                    isPdf := true })
          saves := s.saves ++ [file] }) := by
  simp [export_save, hf, lookup_pdf, setFile_same, setFile_set, saved_file]

/-- The save phase for a unique canvas and a supported non-pdf format:
save, no checksum record. -/
theorem export_save_nonpdf (env : Env) (sch : Schema) (s : State)
    (cn file fmtL ef : String) (chk : Option String) (ic : Bool) (c : Canvas)
    (hf : sch.canvases.filter (fun x => x.name == cn) = [c])
    (hfmt : fmtL ≠ "pdf")
    (hef : EXPORT_FORMATS.lookup fmtL = some ef) :
    export_save env sch s cn file fmtL chk ic =
      (.ok true,
       { s with fs := setFile s.fs file (some (saved_file env c ef))
                saves := s.saves ++ [file] }) := by
  simp [export_save, hf, hef, hfmt]

/-- Behaviour of `export` when the output file is absent or force is set, for the pdf
format and a unique canvas: the checksum is computed, the canvas saved,
and the artifact tagged. -/
theorem export_nofile_pdf (env : Env) (sch : Schema) (s : State)
    (cn file fmt : String) (force ic : Bool) (c : Canvas)
    (hbr : ¬((s.fs file).isSome ∧ force = false))
    (hfmt : py_lower fmt = "pdf")
    (hf : sch.canvases.filter (fun x => x.name == cn) = [c]) :
    «export» env sch s cn file fmt force ic =
      (.ok true,
       { s with
          fs := setFile (setFile s.fs (s.tmpNames s.tmpIdx) none) file
            (some { data := env.render c.content "Apple PDF pasteboard type"
                    subject := some (PDF_CHECKSUM_ATTRIBUTE ++ freshOf env c)
                    isPdf := true })
          tmpIdx := s.tmpIdx + 1
          saves := s.saves ++ [s.tmpNames s.tmpIdx, file] }) := by
  show exportFuel (2+1) env sch s cn file fmt force ic = _
  simp only [exportFuel]
  rw [if_neg hbr, if_pos hfmt, hfmt, computeFuel_two_ok env sch s cn c hf]
  show export_save env sch (stepState s) cn file "pdf" (some (freshOf env c))
    ic = _
  rw [export_save_pdf env sch (stepState s) cn file (some (freshOf env c)) ic
    c hf]
  simp [stepState, pyStrOpt]

/-- Behaviour of `export` when the output file is absent or force is set, for a
supported non-pdf format and a unique canvas: plain save, no checksum. -/
theorem export_nofile_nonpdf (env : Env) (sch : Schema) (s : State)
    (cn file fmt ef : String) (force ic : Bool) (c : Canvas)
    (hbr : ¬((s.fs file).isSome ∧ force = false))
    (hfmt : py_lower fmt ≠ "pdf")
    (hef : EXPORT_FORMATS.lookup (py_lower fmt) = some ef)
    (hf : sch.canvases.filter (fun x => x.name == cn) = [c]) :
    «export» env sch s cn file fmt force ic =
      (.ok true,
       { s with fs := setFile s.fs file (some (saved_file env c ef))
                saves := s.saves ++ [file] }) := by
  show exportFuel (2+1) env sch s cn file fmt force ic = _
  simp only [exportFuel]
  rw [if_neg hbr, if_neg hfmt,
    export_save_nonpdf env sch s cn file (py_lower fmt) ef none ic c hf hfmt
      hef]

/-- Behaviour of `export` with an existing output file and no force, when reading the
existing checksum raises: the exception propagates before anything
happens. -/
theorem export_existing_err (env : Env) (sch : Schema) (s : State)
    (cn file fmt : String) (force ic : Bool) (e : PyErr)
    (hfs : (s.fs file).isSome = true) (hforce : force = false)
    (hex : existing_of env s.fs file (py_lower fmt) = .error e) :
    «export» env sch s cn file fmt force ic = (.error e, s) := by
  show exportFuel (2+1) env sch s cn file fmt force ic = _
  simp only [exportFuel]
  rw [if_pos ⟨hfs, hforce⟩, hex]

/-- Behaviour of `export` with an existing output file, no force, and a
unique canvas: when the stored checksum matches the freshly computed one, the call skips
(returns `False`) and the only state change is the temp-file churn of the
checksum computation. -/
theorem export_existing_skip (env : Env) (sch : Schema) (s : State)
    (cn file fmt : String) (force ic : Bool) (c : Canvas)
    (hfs : (s.fs file).isSome = true) (hforce : force = false)
    (hf : sch.canvases.filter (fun x => x.name == cn) = [c])
    (hex : existing_of env s.fs file (py_lower fmt) =
      .ok (some (freshOf env c))) :
    «export» env sch s cn file fmt force ic = (.ok false, stepState s) := by
  show exportFuel (2+1) env sch s cn file fmt force ic = _
  simp only [exportFuel]
  rw [if_pos ⟨hfs, hforce⟩, hex, computeFuel_two_ok env sch s cn c hf]
  simp

/-- Behaviour of `export` with an existing output file, no force, and a
unique canvas: when the stored checksum does not match the freshly computed one, the call
proceeds to the save phase carrying the fresh checksum. -/
theorem export_existing_nonskip (env : Env) (sch : Schema) (s : State)
    (cn file fmt : String) (force ic : Bool) (c : Canvas) (ex : Option String)
    (hfs : (s.fs file).isSome = true) (hforce : force = false)
    (hf : sch.canvases.filter (fun x => x.name == cn) = [c])
    (hex : existing_of env s.fs file (py_lower fmt) = .ok ex)
    (hne : ex ≠ some (freshOf env c)) :
    «export» env sch s cn file fmt force ic =
      export_save env sch (stepState s) cn file (py_lower fmt)
        (some (freshOf env c)) ic := by
  show exportFuel (2+1) env sch s cn file fmt force ic = _
  simp only [exportFuel]
  rw [if_pos ⟨hfs, hforce⟩, hex, computeFuel_two_ok env sch s cn c hf]
  simp [hne]

/-- Behaviour of `export` for a canvas name without a unique match, when the checksum
path is not taken (non-pdf format and no comparison): warn and return
`False`; nothing else changes. -/
theorem export_nomatch_plain (env : Env) (sch : Schema) (s : State)
    (cn file fmt : String) (force ic : Bool)
    (hbr : ¬((s.fs file).isSome ∧ force = false))
    (hfmt : py_lower fmt ≠ "pdf")
    (hf : ∀ c, sch.canvases.filter (fun x => x.name == cn) ≠ [c]) :
    «export» env sch s cn file fmt force ic =
      (.ok false,
       { s with warnings := s.warnings ++ [warn_msg cn sch.schemafile] }) := by
  show exportFuel (2+1) env sch s cn file fmt force ic = _
  simp only [exportFuel]
  rw [if_neg hbr, if_neg hfmt,
    export_save_nomatch env sch s cn file (py_lower fmt) none ic hf]

/-- Behaviour of `export` for a canvas name without a unique match, when the format is
pdf and the checksum-comparison branch is not taken: the checksum
computation's `assert` raises `AssertionError`. -/
theorem export_nomatch_pdf (env : Env) (sch : Schema) (s : State)
    (cn file fmt : String) (force ic : Bool)
    (hbr : ¬((s.fs file).isSome ∧ force = false))
    (hfmt : py_lower fmt = "pdf")
    (hf : ∀ c, sch.canvases.filter (fun x => x.name == cn) ≠ [c]) :
    «export» env sch s cn file fmt force ic =
      (.error .assertionError,
       { s with fs := setFile s.fs (s.tmpNames s.tmpIdx) none
                tmpIdx := s.tmpIdx + 1
                warnings := s.warnings ++ [warn_msg cn sch.schemafile] }) := by
  show exportFuel (2+1) env sch s cn file fmt force ic = _
  simp only [exportFuel]
  rw [if_neg hbr, if_pos hfmt, computeFuel_two_fail env sch s cn hf]

/-- Behaviour of `export` for a canvas name without a unique match, when an existing
output file (and no force) triggers the checksum comparison and the
extraction of the existing checksum succeeds: the fresh checksum
computation's `assert` raises `AssertionError`. -/
theorem export_nomatch_existing (env : Env) (sch : Schema) (s : State)
    (cn file fmt : String) (force ic : Bool) (ex : Option String)
    (hfs : (s.fs file).isSome = true) (hforce : force = false)
    (hex : existing_of env s.fs file (py_lower fmt) = .ok ex)
    (hf : ∀ c, sch.canvases.filter (fun x => x.name == cn) ≠ [c]) :
    «export» env sch s cn file fmt force ic =
      (.error .assertionError,
       { s with fs := setFile s.fs (s.tmpNames s.tmpIdx) none
                tmpIdx := s.tmpIdx + 1
                warnings := s.warnings ++ [warn_msg cn sch.schemafile] }) := by
  show exportFuel (2+1) env sch s cn file fmt force ic = _
  simp only [exportFuel]
  rw [if_pos ⟨hfs, hforce⟩, hex, computeFuel_two_fail env sch s cn hf]

/-! ## String and list helpers -/

theorem py_startswith_append (p t : String) :
    py_startswith (p ++ t) p = true := by
  simp only [py_startswith, String.data_append, List.take_left]
  exact beq_self_eq_true p.data

theorem py_slice_from_append (p t : String) :
    py_slice_from (p ++ t) p.data.length = t := by
  simp only [py_slice_from, String.data_append, List.drop_left]

theorem py_slice_from_append_len (p t : String) :
    py_slice_from (p ++ t) p.length = t :=
  py_slice_from_append p t

theorem string_append_right_inj (x a b : String) (h : a ++ x = b ++ x) :
    a = b := by
  have hd : a.data ++ x.data = b.data ++ x.data := by
    have := congrArg String.data h
    simpa [String.data_append] using this
  exact congrArg String.mk (List.append_inj_left' hd rfl)

theorem tpath_inj (dir fmtArg a b : String)
    (h : tpath dir a fmtArg = tpath dir b fmtArg) : a = b := by
  have hd : dir.data ++ ("/".data ++ (a.data ++ (".".data ++ fmtArg.data))) =
      dir.data ++ ("/".data ++ (b.data ++ (".".data ++ fmtArg.data))) := by
    have := congrArg String.data h
    simpa [tpath, String.data_append, List.append_assoc] using this
  have h1 := List.append_inj_right hd rfl
  have h2 := List.append_inj_right h1 rfl
  have h3 : a.data = b.data := by
    have h4 : (a.data ++ ".".data) ++ fmtArg.data =
        (b.data ++ ".".data) ++ fmtArg.data := by
      simpa [List.append_assoc] using h2
    exact List.append_inj_left' (List.append_inj_left' h4 rfl) rfl
  exact congrArg String.mk h3

/-- With pairwise distinct canvas names, each name occurring in the
document selects exactly one canvas. -/
theorem filter_name_singleton_of_nodup (l : List Canvas)
    (hnd : (l.map Canvas.name).Nodup) (n : String)
    (hn : n ∈ l.map Canvas.name) :
    ∃ c : Canvas, l.filter (fun x => x.name == n) = [c] ∧ c.name = n := by
  induction l with
  | nil => simp at hn
  | cons c rest ih =>
    simp only [List.map_cons, List.nodup_cons] at hnd
    by_cases hc : c.name = n
    · refine ⟨c, ?_, hc⟩
      have hrest : rest.filter (fun x => x.name == n) = [] := by
        rw [List.filter_eq_nil_iff]
        intro x hx
        simp only [beq_iff_eq]
        intro hxn
        exact hnd.1 (hc ▸ hxn ▸ List.mem_map_of_mem Canvas.name hx)
      simp [List.filter_cons, hc, hrest]
    · have hn' : n ∈ rest.map Canvas.name := by
        rcases List.mem_cons.1 hn with h | h
        · exact absurd h.symm hc
        · exact h
      obtain ⟨c', hf, hcn⟩ := ih hnd.2 hn'
      refine ⟨c', ?_, hcn⟩
      simp [List.filter_cons, hc, hf]

/-! ## Inversion lemmas -/

/-- Inversion: a successful `compute_canvas_checksum` (at the fuel used by
`export`) implies a unique canvas match, and determines the returned
digest and the state. -/
theorem computeFuel_two_ok_inv (env : Env) (sch : Schema) (s : State)
    (cn : String) (v : String) (s1 : State)
    (h : computeFuel 2 env sch s cn = (.ok v, s1)) :
    ∃ c, sch.canvases.filter (fun x => x.name == cn) = [c]
      ∧ v = freshOf env c ∧ s1 = stepState s := by
  by_cases hc : ∃ c, sch.canvases.filter (fun x => x.name == cn) = [c]
  · obtain ⟨c, hf⟩ := hc
    rw [computeFuel_two_ok env sch s cn c hf] at h
    obtain ⟨h1, h2⟩ := Prod.mk.injEq .. ▸ h
    exact ⟨c, hf, (Except.ok.injEq .. ▸ h1).symm, h2.symm⟩
  · push_neg at hc
    rw [computeFuel_two_fail env sch s cn hc] at h
    exact absurd (congrArg Prod.fst h) (by simp)

/-- Inversion of the save phase returning `True`: a unique canvas match
and a supported format, and the output file holds the rendered artifact
(tagged with the checksum record in the pdf case). -/
theorem export_save_ok_inv (env : Env) (sch : Schema) (s : State)
    (cn file fmtL : String) (chk : Option String) (ic : Bool) (s' : State)
    (h : export_save env sch s cn file fmtL chk ic = (.ok true, s')) :
    ∃ c ef, sch.canvases.filter (fun x => x.name == cn) = [c]
      ∧ EXPORT_FORMATS.lookup fmtL = some ef
      ∧ (fmtL = "pdf" →
          s'.fs file = some { saved_file env c ef with
            subject := some (PDF_CHECKSUM_ATTRIBUTE ++ pyStrOpt chk) })
      ∧ (fmtL ≠ "pdf" → s'.fs file = some (saved_file env c ef)) := by
  match hm : sch.canvases.filter (fun x => x.name == cn) with
  | [] =>
    rw [export_save_nomatch env sch s cn file fmtL chk ic (by simp [hm])] at h
    exact absurd (congrArg Prod.fst h) (by simp)
  | c1 :: c2 :: cs =>
    rw [export_save_nomatch env sch s cn file fmtL chk ic (by simp [hm])] at h
    exact absurd (congrArg Prod.fst h) (by simp)
  | [c] =>
    match hef : EXPORT_FORMATS.lookup fmtL with
    | none =>
      exfalso
      simp only [export_save, hm, hef] at h
      exact absurd (congrArg Prod.fst h) (by simp)
    | some ef =>
      by_cases hpdf : fmtL = "pdf"
      · subst hpdf
        rw [export_save_pdf env sch s cn file chk ic c hm] at h
        have h2 := (Prod.mk.injEq .. ▸ h).2
        subst h2
        have hef2 : ef = "Apple PDF pasteboard type" := by
          rw [lookup_pdf] at hef
          exact (Option.some.injEq .. ▸ hef).symm
        subst hef2
        refine ⟨c, "Apple PDF pasteboard type", by simp [hm],
          by simp [lookup_pdf], ?_, ?_⟩
        · intro _
          simp [setFile_same, saved_file]
        · intro hne
          exact absurd rfl hne
      · rw [export_save_nonpdf env sch s cn file fmtL ef chk ic c hm hpdf hef]
          at h
        have h2 := (Prod.mk.injEq .. ▸ h).2
        subst h2
        refine ⟨c, ef, by simp [hm], by simp [hef], ?_, ?_⟩
        · intro hpdf2
          exact absurd hpdf2 hpdf
        · intro _
          simp [setFile_same]

/-- The save log of the save phase: one save of `file` when it returns
`True`, no save when the canvas lookup fails. -/
theorem export_save_saves (env : Env) (sch : Schema) (s : State)
    (cn file fmtL : String) (chk : Option String) (ic : Bool) (b : Bool)
    (s' : State)
    (h : export_save env sch s cn file fmtL chk ic = (.ok b, s')) :
    (b = true ∧ s'.saves = s.saves ++ [file])
    ∨ (b = false ∧ s'.saves = s.saves) := by
  match hm : sch.canvases.filter (fun x => x.name == cn) with
  | [] =>
    rw [export_save_nomatch env sch s cn file fmtL chk ic (by simp [hm])] at h
    right
    obtain ⟨h1, h2⟩ := Prod.mk.injEq .. ▸ h
    subst h2
    exact ⟨by simpa using h1.symm, by simp⟩
  | c1 :: c2 :: cs =>
    rw [export_save_nomatch env sch s cn file fmtL chk ic (by simp [hm])] at h
    right
    obtain ⟨h1, h2⟩ := Prod.mk.injEq .. ▸ h
    subst h2
    exact ⟨by simpa using h1.symm, by simp⟩
  | [c] =>
    match hef : EXPORT_FORMATS.lookup fmtL with
    | none =>
      exfalso
      simp only [export_save, hm, hef] at h
      exact absurd (congrArg Prod.fst h) (by simp)
    | some ef =>
      left
      by_cases hpdf : fmtL = "pdf"
      · subst hpdf
        rw [export_save_pdf env sch s cn file chk ic c hm] at h
        obtain ⟨h1, h2⟩ := Prod.mk.injEq .. ▸ h
        subst h2
        exact ⟨by simpa using h1.symm, by simp⟩
      · rw [export_save_nonpdf env sch s cn file fmtL ef chk ic c hm hpdf hef]
          at h
        obtain ⟨h1, h2⟩ := Prod.mk.injEq .. ▸ h
        subst h2
        exact ⟨by simpa using h1.symm, by simp⟩

/-- Behaviour of `export` when neither checksum branch is taken (no comparison, and a
non-pdf format): it is exactly the save phase with no checksum. -/
theorem export_plain_eq (env : Env) (sch : Schema) (s : State)
    (cn file fmt : String) (force ic : Bool)
    (hbr : ¬((s.fs file).isSome ∧ force = false))
    (hfmt : py_lower fmt ≠ "pdf") :
    «export» env sch s cn file fmt force ic =
      export_save env sch s cn file (py_lower fmt) none ic := by
  show exportFuel (2+1) env sch s cn file fmt force ic = _
  simp only [exportFuel]
  rw [if_neg hbr, if_neg hfmt]

/-- Restatement of `export_nofile_pdf` through `afterPdfExport`. -/
theorem export_nofile_pdf_state (env : Env) (sch : Schema) (s : State)
    (cn file fmt : String) (force ic : Bool) (c : Canvas)
    (hbr : ¬((s.fs file).isSome ∧ force = false))
    (hfmt : py_lower fmt = "pdf")
    (hf : sch.canvases.filter (fun x => x.name == cn) = [c]) :
    «export» env sch s cn file fmt force ic =
      (.ok true, afterPdfExport env c s file) :=
  export_nofile_pdf env sch s cn file fmt force ic c hbr hfmt hf

/-! ## Shared specification of `export` without a unique canvas match -/

/-- Behaviour of `export` when the requested name does not select exactly
one canvas (missing name, or duplicated name): when the checksum path is
not taken the call warns and returns `False` with no other change; when
the checksum path is taken (pdf format, or an existing output file without
force) an exception propagates, and still nothing is saved. -/
theorem export_no_unique_match_spec (env : Env) (sch : Schema) (s : State)
    (cn file fmt : String) (force ic : Bool)
    (hf : ∀ c, sch.canvases.filter (fun x => x.name == cn) ≠ [c])
    (htmp : s.tmpNames s.tmpIdx ≠ file) :
    ((py_lower fmt ≠ "pdf" ∧ ¬((s.fs file).isSome ∧ force = false)) →
      «export» env sch s cn file fmt force ic =
        (.ok false,
         { s with warnings := s.warnings ++ [warn_msg cn sch.schemafile] }))
    ∧ ((py_lower fmt = "pdf" ∨ ((s.fs file).isSome ∧ force = false)) →
      (∃ e, («export» env sch s cn file fmt force ic).1 = .error e)
      ∧ («export» env sch s cn file fmt force ic).2.fs file = s.fs file
      ∧ («export» env sch s cn file fmt force ic).2.saves = s.saves) := by
  constructor
  · rintro ⟨hfmt, hbr⟩
    exact export_nomatch_plain env sch s cn file fmt force ic hbr hfmt hf
  · intro hcase
    by_cases hbr : (s.fs file).isSome ∧ force = false
    · -- the comparison branch runs first
      cases hE : existing_of env s.fs file (py_lower fmt) with
      | error e =>
        rw [export_existing_err env sch s cn file fmt force ic e hbr.1 hbr.2
          hE]
        exact ⟨⟨e, rfl⟩, rfl, rfl⟩
      | ok ex =>
        rw [export_nomatch_existing env sch s cn file fmt force ic ex hbr.1
          hbr.2 hE hf]
        refine ⟨⟨.assertionError, rfl⟩, ?_, rfl⟩
        exact setFile_ne s.fs (s.tmpNames s.tmpIdx) file none
          (Ne.symm htmp)
    · have hfmt : py_lower fmt = "pdf" := by
        rcases hcase with h | h
        · exact h
        · exact absurd h hbr
      rw [export_nomatch_pdf env sch s cn file fmt force ic hbr hfmt hf]
      refine ⟨⟨.assertionError, rfl⟩, ?_, rfl⟩
      exact setFile_ne s.fs (s.tmpNames s.tmpIdx) file none (Ne.symm htmp)

/-! ## Claims -/

/-- C5, counterexample: `checksum_pdf` on a PDF artifact never tagged by
the tool whose subject attribute is absent raises (the attribute lookup
fails) instead of returning `None`, contradicting the claim that checksum
extraction returns null for every artifact never tagged by this tool. -/
theorem C5_checksum_pdf_counterexample :
    checksum_pdf stPdfUntagged.fs "out.pdf" = .error .keyError
    ∧ checksum_pdf stPdfUntagged.fs "out.pdf" ≠ .ok none := by
  refine ⟨rfl, ?_⟩
  intro h
  rw [show checksum_pdf stPdfUntagged.fs "out.pdf" = .error .keyError
    from rfl] at h
  exact Except.noConfusion h

/-- C5 (amended): for a parseable pdf artifact, `checksum_pdf` returns
`None` when the subject attribute is present but does not begin with the
marker; when the subject attribute is absent, the lookup raises
(`KeyError`) instead of returning `None`. -/
theorem C5_checksum_pdf_amended (fs : String → Option File) (p : String)
    (f : File) (hp : fs p = some f) (hpdf : f.isPdf = true) :
    (f.subject = none → checksum_pdf fs p = .error .keyError)
    ∧ (∀ subj, f.subject = some subj →
        py_startswith subj PDF_CHECKSUM_ATTRIBUTE = false →
        checksum_pdf fs p = .ok none) := by
  constructor
  · intro hs
    simp [checksum_pdf, hp, hpdf, hs]
  · intro subj hs hsw
    simp [checksum_pdf, hp, hpdf, hs, hsw]

/-- C5 witness: a pdf with an unrelated subject yields `None`. -/
theorem C5_checksum_pdf_amended_witness :
    checksum_pdf fsTagOther "x.pdf" = .ok none :=
  (C5_checksum_pdf_amended fsTagOther "x.pdf"
    { data := "D", subject := some "unrelated", isPdf := true }
    rfl rfl).2 "unrelated" rfl (by decide)

/-- C7: every temporary file created by `compute_canvas_checksum` is gone
when the call finishes, whether it returns normally or raises: the
temporary path it drew holds no file in the final state. -/
theorem C7_tmpfile_removed (env : Env) (sch : Schema) (s : State)
    (cn : String) :
    ((compute_canvas_checksum env sch s cn).2).fs (s.tmpNames s.tmpIdx) =
      none := by
  show ((computeFuel 2 env sch s cn).2).fs (s.tmpNames s.tmpIdx) = none
  by_cases hc : ∃ c, sch.canvases.filter (fun x => x.name == cn) = [c]
  · obtain ⟨c, hf⟩ := hc
    rw [computeFuel_two_ok env sch s cn c hf]
    simp [stepState, setFile_same]
  · push_neg at hc
    rw [computeFuel_two_fail env sch s cn hc]
    simp [setFile_same]

/-- C8: constructing the schema object for a path that is not an existing
file raises `ValueError` at once, before any call into the external
application (the recorded application-call list is empty). -/
theorem C8_schema_init_missing_file (env : Env)
    (fs : String → Option File) (verbose : Bool) (path : String)
    (h : fs path = none) :
    schema_init env fs verbose path = (.error .valueError, []) := by
  simp [schema_init, h]

/-- C8 witness. -/
theorem C8_schema_init_missing_file_witness :
    schema_init envW (fun _ => none) false "missing.graffle" =
      (.error .valueError, []) :=
  C8_schema_init_missing_file envW (fun _ => none) false "missing.graffle"
    rfl

/-- C1, counterexample: the claim fails on the code in two ways.  First,
with two canvases sharing the requested name (the name therefore exists in
the document), no output file and no force, the claim demands that the
save runs, but `export` returns `False`, saves nothing and creates no
file.  Second, with a unique canvas and an existing output pdf whose
subject attribute is absent (untagged), the claim demands a checksum
comparison deciding skip-or-export, but `export` raises instead of either
saving or returning the skip result. -/
theorem C1_export_claim_counterexample :
    («export» envW schDup stW "a" "out.png" "png" false false).1 = .ok false
    ∧ («export» envW schDup stW "a" "out.png" "png" false false).2.saves = []
    ∧ («export» envW schDup stW "a" "out.png" "png" false false).2.fs
        "out.png" = none
    ∧ "a" ∈ schDup.canvases.map Canvas.name
    ∧ stW.fs "out.png" = none
    ∧ («export» envW schOne stPdfUntagged "a" "out.pdf" "pdf" false
        false).1 = .error .keyError :=
  ⟨rfl, rfl, rfl, by decide, rfl, rfl⟩

/-- C2, counterexample: for a canvas name not present in the document and
the (default) pdf format, `export` raises `AssertionError` out of the
checksum computation instead of returning `False` without an exception, as
the claim demands for every format. -/
theorem C2_missing_canvas_counterexample :
    («export» envW schB stW "a" "out.pdf" "pdf" false false).1 =
      .error .assertionError
    ∧ («export» envW schB stW "a" "out.pdf" "pdf" false false).2.fs
        "out.pdf" = none :=
  ⟨rfl, rfl⟩

/-- C2 (amended): for a canvas name not present in the document, `export`
never creates the output file; it logs the warning and returns `False`
without an exception exactly when the checksum path is not taken (format
other than pdf after lowercasing, and no existing output file or force
set); otherwise an exception propagates (the checksum computation's
`assert`, or the error from reading the existing artifact's checksum). -/
theorem C2_missing_canvas_amended (env : Env) (sch : Schema) (s : State)
    (cn file fmt : String) (force ic : Bool)
    (hmiss : sch.canvases.filter (fun x => x.name == cn) = [])
    (htmp : s.tmpNames s.tmpIdx ≠ file) :
    ((py_lower fmt ≠ "pdf" ∧ ¬((s.fs file).isSome ∧ force = false)) →
      «export» env sch s cn file fmt force ic =
        (.ok false,
         { s with warnings := s.warnings ++ [warn_msg cn sch.schemafile] }))
    ∧ ((py_lower fmt = "pdf" ∨ ((s.fs file).isSome ∧ force = false)) →
      (∃ e, («export» env sch s cn file fmt force ic).1 = .error e)
      ∧ («export» env sch s cn file fmt force ic).2.fs file = s.fs file
      ∧ («export» env sch s cn file fmt force ic).2.saves = s.saves) :=
  export_no_unique_match_spec env sch s cn file fmt force ic
    (by simp [hmiss]) htmp

/-- C2 witness: missing canvas, png format, empty filesystem — warn and
return `False`. -/
theorem C2_missing_canvas_amended_witness :
    «export» envW schB stW "a" "out.png" "png" false false =
      (.ok false,
       { stW with warnings :=
          stW.warnings ++ [warn_msg "a" schB.schemafile] }) :=
  (C2_missing_canvas_amended envW schB stW "a" "out.png" "png" false false
    (by decide) (by decide)).1 ⟨by decide, by decide⟩

/-- C10, counterexample: with two canvases sharing the requested name and
the pdf format, `export` raises `AssertionError` instead of returning
`False` (no save happens, as the empty save log shows). -/
theorem C10_duplicate_canvas_counterexample :
    («export» envW schDup stW "a" "out.pdf" "pdf" false false).1 =
      .error .assertionError
    ∧ («export» envW schDup stW "a" "out.pdf" "pdf" false false).2.saves =
      [] :=
  ⟨rfl, rfl⟩

/-- C10 (amended): when two or more canvases share the requested name,
`export` never saves the output; it returns `False` exactly when the
checksum path is not taken (non-pdf format and no existing file or force),
and otherwise raises (the checksum computation's `assert`, or the error
from reading the existing artifact's checksum). -/
theorem C10_duplicate_canvas_amended (env : Env) (sch : Schema) (s : State)
    (cn file fmt : String) (force ic : Bool)
    (hdup : 2 ≤ (sch.canvases.filter (fun x => x.name == cn)).length)
    (htmp : s.tmpNames s.tmpIdx ≠ file) :
    ((py_lower fmt ≠ "pdf" ∧ ¬((s.fs file).isSome ∧ force = false)) →
      «export» env sch s cn file fmt force ic =
        (.ok false,
         { s with warnings := s.warnings ++ [warn_msg cn sch.schemafile] }))
    ∧ ((py_lower fmt = "pdf" ∨ ((s.fs file).isSome ∧ force = false)) →
      (∃ e, («export» env sch s cn file fmt force ic).1 = .error e)
      ∧ («export» env sch s cn file fmt force ic).2.fs file = s.fs file
      ∧ («export» env sch s cn file fmt force ic).2.saves = s.saves) := by
  refine export_no_unique_match_spec env sch s cn file fmt force ic ?_ htmp
  intro c hc
  rw [hc] at hdup
  simp at hdup

/-- C10 witness: duplicate canvas name, png format, empty filesystem —
warn and return `False`, nothing saved. -/
theorem C10_duplicate_canvas_amended_witness :
    «export» envW schDup stW "a" "out.png" "png" false false =
      (.ok false,
       { stW with warnings :=
          stW.warnings ++ [warn_msg "a" schDup.schemafile] }) :=
  (C10_duplicate_canvas_amended envW schDup stW "a" "out.png" "png" false
    false (by decide) (by decide)).1 ⟨by decide, by decide⟩

/-- C6, counterexample: for a document with two canvases sharing one name,
`export_all` does not produce one output file per canvas: with the pdf
format it raises out of the first canvas's checksum computation and
produces no output file at all. -/
theorem C6_export_all_counterexample :
    (export_all envW schDup stW "d" "pdf" false).1 = .error .assertionError
    ∧ (export_all envW schDup stW "d" "pdf" false).2.fs
        (tpath "d" "a" "pdf") = none
    ∧ schDup.canvases.length = 2 :=
  ⟨rfl, rfl, rfl⟩

/-- C1 (amended): for a call to `export` where exactly one canvas bears
the requested name and the (lowercased) format is supported: if the output
file does not exist or force is set, the save runs and `export` returns
`True`.  Otherwise, when reading the existing artifact's checksum succeeds
(for pdf this requires the subject attribute to be present), the call
returns the skip result `False` exactly when that checksum equals the
freshly computed canvas checksum (a `some`, hence non-null), leaving the
filesystem unchanged on a skip, and runs the save (returning `True`)
otherwise; when reading the existing checksum raises, the exception
propagates with no state change. -/
theorem C1_export_decision_amended (env : Env) (sch : Schema) (s : State)
    (cn file fmt : String) (force ic : Bool) (c : Canvas)
    (hf : sch.canvases.filter (fun x => x.name == cn) = [c])
    (hef : (EXPORT_FORMATS.lookup (py_lower fmt)).isSome = true)
    (htmp2 : s.fs (s.tmpNames s.tmpIdx) = none) :
    (¬((s.fs file).isSome ∧ force = false) →
      («export» env sch s cn file fmt force ic).1 = .ok true)
    ∧ (∀ ex, (s.fs file).isSome = true → force = false →
        existing_of env s.fs file (py_lower fmt) = .ok ex →
        ((«export» env sch s cn file fmt force ic).1 = .ok false ↔
          ex = some (freshOf env c))
        ∧ (ex ≠ some (freshOf env c) →
            («export» env sch s cn file fmt force ic).1 = .ok true)
        ∧ (ex = some (freshOf env c) →
            («export» env sch s cn file fmt force ic).2.fs = s.fs))
    ∧ (∀ e, (s.fs file).isSome = true → force = false →
        existing_of env s.fs file (py_lower fmt) = .error e →
        «export» env sch s cn file fmt force ic = (.error e, s)) := by
  refine ⟨?_, ?_, ?_⟩
  · intro hbr
    by_cases hp : py_lower fmt = "pdf"
    · rw [export_nofile_pdf env sch s cn file fmt force ic c hbr hp hf]
    · obtain ⟨ef, hef'⟩ := Option.isSome_iff_exists.1 hef
      rw [export_nofile_nonpdf env sch s cn file fmt ef force ic c hbr hp
        hef' hf]
  · intro ex hfs hforce hex
    by_cases heq : ex = some (freshOf env c)
    · subst heq
      rw [export_existing_skip env sch s cn file fmt force ic c hfs hforce
        hf hex]
      refine ⟨by simp, fun hne => absurd rfl hne, fun _ => ?_⟩
      show (stepState s).fs = s.fs
      simp [stepState, setFile_none_eq s.fs (s.tmpNames s.tmpIdx) htmp2]
    · rw [export_existing_nonskip env sch s cn file fmt force ic c ex hfs
        hforce hf hex heq]
      by_cases hp : py_lower fmt = "pdf"
      · rw [hp, export_save_pdf env sch (stepState s) cn file
          (some (freshOf env c)) ic c hf]
        exact ⟨⟨fun hcontr => absurd hcontr (by simp),
          fun hcontr => absurd hcontr heq⟩,
          fun _ => rfl, fun hcontr => absurd hcontr heq⟩
      · obtain ⟨ef, hef'⟩ := Option.isSome_iff_exists.1 hef
        rw [export_save_nonpdf env sch (stepState s) cn file (py_lower fmt)
          ef (some (freshOf env c)) ic c hf hp hef']
        exact ⟨⟨fun hcontr => absurd hcontr (by simp),
          fun hcontr => absurd hcontr heq⟩,
          fun _ => rfl, fun hcontr => absurd hcontr heq⟩
  · intro e hfs hforce hex
    exact export_existing_err env sch s cn file fmt force ic e hfs hforce hex

/-- C1 witness: fresh filesystem, pdf format — the save runs. -/
theorem C1_export_decision_amended_witness :
    («export» envW schOne stW "a" "out.pdf" "pdf" false false).1 =
      .ok true :=
  (C1_export_decision_amended envW schOne stW "a" "out.pdf" "pdf" false
    false { name := "a", content := "x" } (by decide) (by decide)
    rfl).1 (by decide)

/-- C3: exporting an unchanged canvas twice as pdf without force: the
first call runs the save and tags the artifact; the second call reads back
exactly the stored checksum, which equals the freshly recomputed one, and
returns the skip result without touching any file (the artifact save runs
only in the first call). -/
theorem C3_idempotent_second_export_skips (env : Env) (sch : Schema)
    (s : State) (cn file : String) (c : Canvas)
    (hf : sch.canvases.filter (fun x => x.name == cn) = [c])
    (hfile : s.fs file = none)
    (ht0f : s.tmpNames s.tmpIdx ≠ file)
    (ht1f : s.tmpNames (s.tmpIdx + 1) ≠ file)
    (ht1 : s.fs (s.tmpNames (s.tmpIdx + 1)) = none) :
    «export» env sch s cn file "pdf" false false =
      (.ok true, afterPdfExport env c s file)
    ∧ existing_of env (afterPdfExport env c s file).fs file "pdf" =
        .ok (some (freshOf env c))
    ∧ («export» env sch (afterPdfExport env c s file) cn file "pdf" false
        false).1 = .ok false
    ∧ («export» env sch (afterPdfExport env c s file) cn file "pdf" false
        false).2.fs = (afterPdfExport env c s file).fs := by
  have hbr : ¬((s.fs file).isSome ∧ (false : Bool) = false) := by
    simp [hfile]
  have h1 := export_nofile_pdf_state env sch s cn file "pdf" false false c
    hbr py_lower_pdf hf
  have hexist : existing_of env (afterPdfExport env c s file).fs file
      "pdf" = .ok (some (freshOf env c)) := by
    simp [existing_of, checksum_pdf, afterPdfExport, setFile_same,
      py_startswith_append, py_slice_from_append, py_slice_from_append_len]
  have hfs1 : ((afterPdfExport env c s file).fs file).isSome = true := by
    simp [afterPdfExport, setFile_same]
  have hex1 : existing_of env (afterPdfExport env c s file).fs file
      (py_lower "pdf") = .ok (some (freshOf env c)) := by
    rw [py_lower_pdf]; exact hexist
  have h2 := export_existing_skip env sch (afterPdfExport env c s file) cn
    file "pdf" false false c hfs1 rfl hf hex1
  refine ⟨h1, hexist, by rw [h2], ?_⟩
  rw [h2]
  show (stepState (afterPdfExport env c s file)).fs =
    (afterPdfExport env c s file).fs
  have hA : (afterPdfExport env c s file).fs
      ((afterPdfExport env c s file).tmpNames
        (afterPdfExport env c s file).tmpIdx) = none := by
    show (afterPdfExport env c s file).fs (s.tmpNames (s.tmpIdx + 1)) = none
    by_cases h01 : s.tmpNames (s.tmpIdx + 1) = s.tmpNames s.tmpIdx
    · simp [afterPdfExport, setFile, ht1f, h01, ht0f]
    · simp [afterPdfExport, setFile, ht1f, h01, ht1]
  simp [stepState, setFile_none_eq _ _ hA]

/-- C3 witness: concrete double export of canvas `a`. -/
theorem C3_idempotent_second_export_skips_witness :
    «export» envW schOne stW "a" "out.pdf" "pdf" false false =
      (.ok true,
       afterPdfExport envW { name := "a", content := "x" } stW "out.pdf")
    ∧ existing_of envW
        (afterPdfExport envW { name := "a", content := "x" } stW
          "out.pdf").fs "out.pdf" "pdf" =
        .ok (some (freshOf envW { name := "a", content := "x" }))
    ∧ («export» envW schOne
        (afterPdfExport envW { name := "a", content := "x" } stW "out.pdf")
        "a" "out.pdf" "pdf" false false).1 = .ok false
    ∧ («export» envW schOne
        (afterPdfExport envW { name := "a", content := "x" } stW "out.pdf")
        "a" "out.pdf" "pdf" false false).2.fs =
      (afterPdfExport envW { name := "a", content := "x" } stW
        "out.pdf").fs :=
  C3_idempotent_second_export_skips envW schOne stW "a" "out.pdf"
    { name := "a", content := "x" } (by decide) rfl (by decide) (by decide)
    rfl

/-- C4: every `export` call that returns `True` (a successful export) in
pdf format leaves at the output path an artifact whose subject attribute
is exactly the marker `OmnigraffleExportChecksum: ` followed by the md5
digest of the canvas's temporary PNG rendering (never a hash of the pdf
artifact's own bytes — the artifact's bytes are the pdf rendering, while
the recorded digest is of the PNG rendering); for every non-pdf format the
written artifact carries no subject attribute at all. -/
theorem C4_pdf_subject_checksum (env : Env) (sch : Schema) (s : State)
    (cn file fmt : String) (force ic : Bool) (s' : State)
    (h : «export» env sch s cn file fmt force ic = (.ok true, s')) :
    (py_lower fmt = "pdf" →
      ∃ c, sch.canvases.filter (fun x => x.name == cn) = [c]
        ∧ s'.fs file = some
            { data := env.render c.content "Apple PDF pasteboard type"
              subject := some (PDF_CHECKSUM_ATTRIBUTE ++ freshOf env c)
              isPdf := true })
    ∧ (py_lower fmt ≠ "pdf" →
      ∃ f, s'.fs file = some f ∧ f.subject = none) := by
  by_cases hbr : (s.fs file).isSome ∧ force = false
  · cases hE : existing_of env s.fs file (py_lower fmt) with
    | error e =>
      rw [export_existing_err env sch s cn file fmt force ic e hbr.1 hbr.2
        hE] at h
      exact absurd (congrArg Prod.fst h) (by simp)
    | ok ex =>
      by_cases hc : ∃ c, sch.canvases.filter (fun x => x.name == cn) = [c]
      · obtain ⟨c, hf⟩ := hc
        by_cases heq : ex = some (freshOf env c)
        · subst heq
          rw [export_existing_skip env sch s cn file fmt force ic c hbr.1
            hbr.2 hf hE] at h
          exact absurd (congrArg Prod.fst h) (by simp)
        · rw [export_existing_nonskip env sch s cn file fmt force ic c ex
            hbr.1 hbr.2 hf hE heq] at h
          obtain ⟨c', ef, hm', hef', hpdf', hnonpdf'⟩ :=
            export_save_ok_inv env sch (stepState s) cn file (py_lower fmt)
              (some (freshOf env c)) ic s' h
          have hcc : c' = c := by
            rw [hf] at hm'
            exact (List.cons.injEq .. ▸ hm').1.symm
          subst hcc
          constructor
          · intro hp
            refine ⟨c', hf, ?_⟩
            have hres := hpdf' hp
            rw [hp, lookup_pdf] at hef'
            have hef2 : ef = "Apple PDF pasteboard type" :=
              (Option.some.injEq .. ▸ hef').symm
            subst hef2
            rw [hres]
            simp [saved_file, pyStrOpt]
          · intro hnp
            exact ⟨saved_file env c' ef, hnonpdf' hnp, rfl⟩
      · push_neg at hc
        rw [export_nomatch_existing env sch s cn file fmt force ic ex hbr.1
          hbr.2 hE hc] at h
        exact absurd (congrArg Prod.fst h) (by simp)
  · by_cases hp : py_lower fmt = "pdf"
    · by_cases hc : ∃ c, sch.canvases.filter (fun x => x.name == cn) = [c]
      · obtain ⟨c, hf⟩ := hc
        rw [export_nofile_pdf env sch s cn file fmt force ic c hbr hp hf]
          at h
        have h2 := (Prod.mk.injEq .. ▸ h).2
        subst h2
        constructor
        · intro _
          exact ⟨c, hf, by simp [setFile_same]⟩
        · intro hnp
          exact absurd hp hnp
      · push_neg at hc
        rw [export_nomatch_pdf env sch s cn file fmt force ic hbr hp hc]
          at h
        exact absurd (congrArg Prod.fst h) (by simp)
    · rw [export_plain_eq env sch s cn file fmt force ic hbr hp] at h
      obtain ⟨c', ef, hm', hef', hpdf', hnonpdf'⟩ :=
        export_save_ok_inv env sch s cn file (py_lower fmt) none ic s' h
      constructor
      · intro hp2
        exact absurd hp2 hp
      · intro _
        exact ⟨saved_file env c' ef, hnonpdf' hp, rfl⟩

/-- C4 witness: the concrete pdf export writes the marker plus the digest
of the PNG rendering into the subject attribute. -/
theorem C4_pdf_subject_checksum_witness :
    ((«export» envW schOne stW "a" "out.pdf" "pdf" false false).2).fs
      "out.pdf" = some
        { data := "R(x,Apple PDF pasteboard type)"
          subject := some ("OmnigraffleExportChecksum: " ++ "HR(x,PNG)")
          isPdf := true } := by
  obtain ⟨c, hfc, hfs⟩ :=
    (C4_pdf_subject_checksum envW schOne stW "a" "out.pdf" "pdf" false
      false _ rfl).1 rfl
  have h0 : schOne.canvases.filter (fun x => x.name == "a") =
      [{ name := "a", content := "x" }] := by decide
  rw [h0] at hfc
  have hc : c = { name := "a", content := "x" } :=
    (List.cons.injEq .. ▸ hfc).1.symm
  subst hc
  exact hfs

/-- C9: `export`'s boolean result does not distinguish outcomes.  Whenever
the call returns a boolean at all, it returns `True` exactly when the save
of the requested output file ran (the save log grew by the output path);
and it returns `False` both on the checksum-skip path and on the
missing-canvas path, as the two concrete runs show. -/
theorem C9_return_value_meaning :
    (∀ (env : Env) (sch : Schema) (s : State) (cn file fmt : String)
        (force ic b : Bool) (s' : State),
      (∀ i, s.tmpNames i ≠ file) →
      «export» env sch s cn file fmt force ic = (.ok b, s') →
      ∃ new, s'.saves = s.saves ++ new ∧ (b = true ↔ file ∈ new))
    ∧ («export» envW schOne stSkip "a" "out.pdf" "pdf" false false).1 =
        .ok false
    ∧ («export» envW schB stW "a" "out.png" "png" false false).1 =
        .ok false := by
  refine ⟨?_, rfl, rfl⟩
  intro env sch s cn file fmt force ic b s' htmp h
  by_cases hbr : (s.fs file).isSome ∧ force = false
  · cases hE : existing_of env s.fs file (py_lower fmt) with
    | error e =>
      rw [export_existing_err env sch s cn file fmt force ic e hbr.1 hbr.2
        hE] at h
      exact absurd (congrArg Prod.fst h) (by simp)
    | ok ex =>
      by_cases hc : ∃ c, sch.canvases.filter (fun x => x.name == cn) = [c]
      · obtain ⟨c, hf⟩ := hc
        by_cases heq : ex = some (freshOf env c)
        · subst heq
          rw [export_existing_skip env sch s cn file fmt force ic c hbr.1
            hbr.2 hf hE] at h
          obtain ⟨h1, h2⟩ := Prod.mk.injEq .. ▸ h
          subst h2
          have hb : b = false := by simpa using h1.symm
          subst hb
          refine ⟨[s.tmpNames s.tmpIdx], by simp [stepState], ?_⟩
          simp [Ne.symm (htmp s.tmpIdx)]
        · rw [export_existing_nonskip env sch s cn file fmt force ic c ex
            hbr.1 hbr.2 hf hE heq] at h
          rcases export_save_saves env sch (stepState s) cn file
              (py_lower fmt) (some (freshOf env c)) ic b s' h with
            ⟨hb, hs⟩ | ⟨hb, hs⟩
          · subst hb
            refine ⟨[s.tmpNames s.tmpIdx, file], ?_, by simp⟩
            rw [hs]
            simp [stepState]
          · subst hb
            refine ⟨[s.tmpNames s.tmpIdx], ?_, ?_⟩
            · rw [hs]
              simp [stepState]
            · simp [Ne.symm (htmp s.tmpIdx)]
      · push_neg at hc
        rw [export_nomatch_existing env sch s cn file fmt force ic ex hbr.1
          hbr.2 hE hc] at h
        exact absurd (congrArg Prod.fst h) (by simp)
  · by_cases hp : py_lower fmt = "pdf"
    · by_cases hc : ∃ c, sch.canvases.filter (fun x => x.name == cn) = [c]
      · obtain ⟨c, hf⟩ := hc
        rw [export_nofile_pdf env sch s cn file fmt force ic c hbr hp hf]
          at h
        obtain ⟨h1, h2⟩ := Prod.mk.injEq .. ▸ h
        subst h2
        have hb : b = true := by simpa using h1.symm
        subst hb
        exact ⟨[s.tmpNames s.tmpIdx, file], by simp, by simp⟩
      · push_neg at hc
        rw [export_nomatch_pdf env sch s cn file fmt force ic hbr hp hc]
          at h
        exact absurd (congrArg Prod.fst h) (by simp)
    · rw [export_plain_eq env sch s cn file fmt force ic hbr hp] at h
      rcases export_save_saves env sch s cn file (py_lower fmt) none ic b
          s' h with ⟨hb, hs⟩ | ⟨hb, hs⟩
      · subst hb
        exact ⟨[file], by simpa using hs, by simp⟩
      · subst hb
        exact ⟨[], by simpa using hs, by simp⟩

/-- C9 witness: a successful export logs the save of the output path. -/
theorem C9_return_value_meaning_witness :
    "o.png" ∈ («export» envW schOne stW "a" "o.png" "png" false
      false).2.saves := by
  obtain ⟨new, h1, h2⟩ := C9_return_value_meaning.1 envW schOne stW "a"
    "o.png" "png" false false true _
    (fun i => by show ("/tmp/t" : String) ≠ "o.png"; decide) rfl
  have hmem : "o.png" ∈ new := h2.mp rfl
  rw [show («export» envW schOne stW "a" "o.png" "png" false
    false).2.saves = stW.saves ++ new from h1]
  exact List.mem_append.mpr (Or.inr hmem)

/-- A fresh-path export (no existing file, or force) of a uniquely-named
canvas in a supported format succeeds, and its effect on the filesystem is
local: the output path now holds a file, a path that held no file still
holds none (apart from the output), and every path other than the output
and the drawn temp name is untouched. -/
theorem export_fresh_total (env : Env) (sch : Schema) (s : State)
    (cn file fmt : String) (force ic : Bool) (c : Canvas) (ef : String)
    (hbr : ¬((s.fs file).isSome ∧ force = false))
    (hef : EXPORT_FORMATS.lookup (py_lower fmt) = some ef)
    (hf : sch.canvases.filter (fun x => x.name == cn) = [c]) :
    ∃ s1, «export» env sch s cn file fmt force ic = (.ok true, s1)
      ∧ s1.tmpNames = s.tmpNames
      ∧ (s1.fs file).isSome = true
      ∧ (∀ q, q ≠ file → q ≠ s.tmpNames s.tmpIdx → s1.fs q = s.fs q)
      ∧ (∀ q, q ≠ file → s.fs q = none → s1.fs q = none) := by
  by_cases hp : py_lower fmt = "pdf"
  · refine ⟨afterPdfExport env c s file,
      export_nofile_pdf_state env sch s cn file fmt force ic c hbr hp hf,
      rfl, by simp [afterPdfExport, setFile_same], ?_, ?_⟩
    · intro q hq1 hq2
      simp [afterPdfExport, setFile, hq1, hq2]
    · intro q hq1 hq0
      by_cases hq2 : q = s.tmpNames s.tmpIdx
      · subst hq2
        simp [afterPdfExport, setFile, hq1]
      · simp [afterPdfExport, setFile, hq1, hq2, hq0]
  · refine ⟨_, export_nofile_nonpdf env sch s cn file fmt ef force ic c hbr
      hp hef hf, rfl, by simp [setFile_same], ?_, ?_⟩
    · intro q hq1 _
      simp [setFile, hq1]
    · intro q hq1 hq0
      simp [setFile, hq1, hq0]

/-- Specification of the `export_all` loop over a list of canvas names,
each selecting exactly one canvas, all output paths fresh, temp names
disjoint from everything: the loop succeeds, creates one file per name,
and changes no other path. -/
theorem export_all_go_spec (env : Env) (sch : Schema)
    (dir fmtArg ef : String) (force : Bool)
    (hef : EXPORT_FORMATS.lookup (py_lower fmtArg) = some ef)
    (names : List String) :
    ∀ s : State,
      names.Nodup →
      (∀ n ∈ names, ∃ c : Canvas,
          sch.canvases.filter (fun x => x.name == n) = [c]) →
      (∀ n ∈ names, s.fs (tpath dir n fmtArg) = none) →
      (∀ i, s.fs (s.tmpNames i) = none) →
      (∀ i n, n ∈ names → s.tmpNames i ≠ tpath dir n fmtArg) →
      (export_all_go env sch dir fmtArg force names s).1 = .ok ()
      ∧ (∀ n ∈ names,
          ((export_all_go env sch dir fmtArg force names s).2.fs
            (tpath dir n fmtArg)).isSome = true)
      ∧ (∀ p, (∀ n ∈ names, p ≠ tpath dir n fmtArg) →
          (export_all_go env sch dir fmtArg force names s).2.fs p =
            s.fs p) := by
  induction names with
  | nil =>
    intro s _ _ _ _ _
    exact ⟨rfl, by simp, fun p _ => rfl⟩
  | cons n rest ih =>
    intro s hnd hsingle hfiles htmpA htmpB
    obtain ⟨c, hf⟩ := hsingle n (by simp)
    have hfsn : s.fs (tpath dir n fmtArg) = none := hfiles n (by simp)
    have hbr : ¬((s.fs (tpath dir n fmtArg)).isSome ∧ force = false) := by
      simp [hfsn]
    obtain ⟨s1, hstep, htn, hsome, hD, hE⟩ :=
      export_fresh_total env sch s n (tpath dir n fmtArg) fmtArg force
        false c ef hbr hef hf
    have hninr : n ∉ rest := (List.nodup_cons.1 hnd).1
    have hgo : export_all_go env sch dir fmtArg force (n :: rest) s =
        export_all_go env sch dir fmtArg force rest s1 := by
      simp only [export_all_go]
      rw [hstep]
    have h1 : rest.Nodup := (List.nodup_cons.1 hnd).2
    have h2 : ∀ m ∈ rest, ∃ c' : Canvas,
        sch.canvases.filter (fun x => x.name == m) = [c'] :=
      fun m hm => hsingle m (by simp [hm])
    have h3 : ∀ m ∈ rest, s1.fs (tpath dir m fmtArg) = none := by
      intro m hm
      have hmn : tpath dir m fmtArg ≠ tpath dir n fmtArg := by
        intro hEq
        exact hninr (tpath_inj dir fmtArg m n hEq ▸ hm)
      exact hE (tpath dir m fmtArg) hmn (hfiles m (by simp [hm]))
    have h4 : ∀ i, s1.fs (s1.tmpNames i) = none := by
      intro i
      rw [htn]
      exact hE (s.tmpNames i) (htmpB i n (by simp)) (htmpA i)
    have h5 : ∀ i m, m ∈ rest → s1.tmpNames i ≠ tpath dir m fmtArg := by
      intro i m hm
      rw [htn]
      exact htmpB i m (by simp [hm])
    obtain ⟨ihr, ihmem, ihframe⟩ := ih s1 h1 h2 h3 h4 h5
    rw [hgo]
    refine ⟨ihr, ?_, ?_⟩
    · intro m hm
      rcases List.mem_cons.1 hm with rfl | hm'
      · rw [ihframe (tpath dir m fmtArg) ?_]
        · exact hsome
        · intro m' hm' hEq
          exact hninr (tpath_inj dir fmtArg m m' hEq ▸ hm')
      · exact ihmem m hm'
    · intro p hp'
      have hprest : ∀ m ∈ rest, p ≠ tpath dir m fmtArg :=
        fun m hm => hp' m (by simp [hm])
      rw [ihframe p hprest]
      have hpn : p ≠ tpath dir n fmtArg := hp' n (by simp)
      by_cases hpt : p = s.tmpNames s.tmpIdx
      · rw [hE p hpn (hpt ▸ htmpA s.tmpIdx), hpt, htmpA s.tmpIdx]
      · exact hD p hpn hpt

/-- C6 (amended): for a document whose canvas names are pairwise distinct,
a supported format, and a target directory none of whose target paths yet
holds a file (temp names disjoint from the target paths), `export_all`
returns normally and produces exactly one output file per canvas, at
`<dir>/<canvas>.<format>`, changing no other path. -/
theorem C6_export_all_amended (env : Env) (sch : Schema) (s : State)
    (dir fmtArg ef : String) (force : Bool)
    (hnd : (sch.canvases.map Canvas.name).Nodup)
    (hef : EXPORT_FORMATS.lookup (py_lower fmtArg) = some ef)
    (hfiles : ∀ c ∈ sch.canvases, s.fs (tpath dir c.name fmtArg) = none)
    (htmpA : ∀ i, s.fs (s.tmpNames i) = none)
    (htmpB : ∀ i, ∀ c ∈ sch.canvases,
      s.tmpNames i ≠ tpath dir c.name fmtArg) :
    (export_all env sch s dir fmtArg force).1 = .ok ()
    ∧ (∀ c ∈ sch.canvases,
        ((export_all env sch s dir fmtArg force).2.fs
          (tpath dir c.name fmtArg)).isSome = true)
    ∧ (∀ p, (∀ c ∈ sch.canvases, p ≠ tpath dir c.name fmtArg) →
        (export_all env sch s dir fmtArg force).2.fs p = s.fs p) := by
  have hgo := export_all_go_spec env sch dir fmtArg ef force hef
    (get_canvas_list sch) s hnd
    (fun n hn => by
      obtain ⟨c, hfc, -⟩ :=
        filter_name_singleton_of_nodup sch.canvases hnd n hn
      exact ⟨c, hfc⟩)
    (fun n hn => by
      obtain ⟨c, hc, rfl⟩ := List.mem_map.1 hn
      exact hfiles c hc)
    htmpA
    (fun i n hn => by
      obtain ⟨c, hc, rfl⟩ := List.mem_map.1 hn
      exact htmpB i c hc)
  obtain ⟨hr, hmem, hframe⟩ := hgo
  refine ⟨hr, ?_, ?_⟩
  · intro c hc
    exact hmem c.name (List.mem_map_of_mem Canvas.name hc)
  · intro p hp
    refine hframe p ?_
    intro n hn
    obtain ⟨c, hc, rfl⟩ := List.mem_map.1 hn
    exact hp c hc

/-- C6 witness: one canvas, png format, empty directory. -/
theorem C6_export_all_amended_witness :
    (export_all envW schOne stW "d" "png" false).1 = .ok ()
    ∧ ((export_all envW schOne stW "d" "png" false).2.fs
        (tpath "d" "a" "png")).isSome = true :=
  have h := C6_export_all_amended envW schOne stW "d" "png" "PNG" false
    (by decide) (by decide)
    (fun c hc => rfl)
    (fun i => rfl)
    (fun i c hc => by
      have hc' : c = { name := "a", content := "x" } :=
        List.mem_singleton.1 hc
      subst hc'
      show ("/tmp/t" : String) ≠ tpath "d" "a" "png"
      decide)
  ⟨h.1, h.2.1 { name := "a", content := "x" } (by decide)⟩

end OmnigraffleExport
